import Mathlib

/-!
Verification of the OpenWebUI Suite core services against their
natural-language specification.  Each service fragment relevant to the
claims is embedded shallowly: Python functions become Lean functions,
SQLite tables become association lists, Redis/Lua state becomes explicit
state passing, and randomness, time and network responses become explicit
parameters or oracles.  Numeric values that are Python floats are
modelled as rationals; machine-level floating point is out of scope.
-/

set_option maxRecDepth 4000

/-! ## Memory 2.0 service (src/02-memory-2.0/src/app.py)

The traits table has primary key (user_id, key) and columns value and
confidence.  `store_trait` runs INSERT OR REPLACE, so the row for the
primary key is replaced wholesale.  The table is modelled as an
association list from (user_id, key) to the row.
-/

structure TraitRow where
  value : String
  confidence : ℚ
  deriving DecidableEq

def TraitDb : Type := List ((String × String) × TraitRow)

/-- Embeds `store_trait`: INSERT OR REPLACE INTO traits. The row for the
primary key (user_id, key) is replaced by (value, confidence). -/
def store_trait (db : TraitDb) (user_id key value : String) (confidence : ℚ) :
    TraitDb :=
  ((user_id, key), ⟨value, confidence⟩) ::
    db.filter (fun e => !(e.1 == (user_id, key)))

/-- Primary-key lookup in the traits table. -/
def lookupTrait (db : TraitDb) (user_id key : String) : Option TraitRow :=
  match db with
  | [] => none
  | e :: rest =>
      if e.1 == (user_id, key) then some e.2 else lookupTrait rest user_id key

/-! ## Gateway rate limiter (src/00-pipelines-gateway/src/server.py)

`_TOKEN_BUCKET_SCRIPT` is the Lua token-bucket script run by Redis EVAL;
`_rate_limiter` interprets its integer reply.  Redis converts the Lua
number returned by the script to an integer reply by truncating the
decimal part.  The bucket hash is modelled as an optional record, a
script failure or unreachable store as `Except.error`.
-/

structure Bucket where
  tokens : ℚ
  ts : ℚ
  deriving DecidableEq

/-- Embeds `_TOKEN_BUCKET_SCRIPT`: refill proportional to elapsed time at
rate/min (rate/60000 per ms), capped at burst; consume one token when at
least one is held; returns the new bucket hash and the raw Lua number
returned to the caller. -/
def tokenBucketScript (bucket : Option Bucket) (nowMs rate burst : ℚ) :
    Bucket × ℚ :=
  let tokens := match bucket with | some b => b.tokens | none => burst
  let ts := match bucket with | some b => b.ts | none => nowMs
  let elapsed := max 0 (nowMs - ts)
  let refill := rate / 60000 * elapsed
  let tokens2 := min burst (tokens + refill)
  if tokens2 < 1 then
    (⟨tokens2, nowMs⟩, 0)
  else
    (⟨tokens2 - 1, nowMs⟩, tokens2 - 1)

/-- Redis converts a Lua number result to an integer reply by removing
the decimal part (truncation toward zero). -/
def luaNumberToInt (q : ℚ) : ℤ :=
  if q < 0 then -((-q).floor) else q.floor

/-- Embeds `_rate_limiter`: disabled limiter admits; any exception while
talking to the store admits (fail-open); otherwise the request is
admitted iff the integer reply of the script is nonzero. -/
def rate_limiter (ratePerMin burst : ℤ)
    (evalResult : Except Unit (Option Bucket)) (nowMs : ℚ) : Bool :=
  if ratePerMin ≤ 0 then true
  else
    match evalResult with
    | .error _ => true
    | .ok bucket =>
        luaNumberToInt (tokenBucketScript bucket nowMs (ratePerMin : ℚ)
          (burst : ℚ)).2 != 0

/-- Embeds the middleware decision in `rate_limit_and_timeout`: a
disallowed request is answered with status 429, otherwise the request
proceeds (`none`). -/
def rateLimitResponse (allowed : Bool) : Option Nat :=
  if allowed then none else some 429

/-- C2 counterexample: upserting a trait with confidence 0.9 and then
re-upserting the same (user_id, key) with confidence 0.8 leaves stored
confidence 0.8, not the maximum 0.9: the claim that stored confidence
equals the max of previous and new confidence is false on the code. -/
theorem C2_counterexample_confidence_replaced :
    lookupTrait
      (store_trait (store_trait [] "u1" "name" "Alice" (9/10))
        "u1" "name" "Bob" (8/10)) "u1" "name" = some ⟨"Bob", 8/10⟩ ∧
    (8/10 : ℚ) ≠ max (9/10 : ℚ) (8/10 : ℚ) := by
  refine ⟨rfl, ?_⟩
  rw [max_eq_left (by norm_num : (8/10 : ℚ) ≤ 9/10)]
  norm_num

/-- C2 amended: a trait upsert replaces the whole row: after
`store_trait`, the row stored under (user_id, key) holds exactly the new
value and the new confidence, whatever was stored before. -/
theorem C2_trait_upsert_replaces_row (db : TraitDb)
    (user_id key value : String) (confidence : ℚ) :
    lookupTrait (store_trait db user_id key value confidence) user_id key =
      some ⟨value, confidence⟩ := by
  simp [store_trait, lookupTrait]

/-- C3: on a fresh bucket with burst=1 and rate 60/min, the very first
request consumes the only token, the script returns the remaining count
0, Python evaluates `remain != 0` to False, and the gateway answers 429:
the request the claim says must be admitted is rejected. -/
theorem C3_first_request_rejected :
    rate_limiter 60 1 (.ok none) 0 = false ∧
    tokenBucketScript none 0 60 1 = (⟨0, 0⟩, 0) ∧
    rateLimitResponse (rate_limiter 60 1 (.ok none) 0) = some 429 := by
  have hscript : tokenBucketScript none 0 60 1 = (⟨0, 0⟩, 0) := by
    simp only [tokenBucketScript]
    norm_num
  have hallow : rate_limiter 60 1 (.ok none) 0 = false := by
    simp only [rate_limiter]
    norm_num [luaNumberToInt, hscript]
    rfl
  exact ⟨hallow, hscript, by rw [hallow]; rfl⟩

/-- C10: with rate limiting enabled (rate/min positive), any exception
inside the rate limiter (store unreachable, script failure) yields an
allow decision: the limiter fails open. -/
theorem C10_rate_limiter_fails_open (ratePerMin burst : ℤ) (nowMs : ℚ)
    (_h : 0 < ratePerMin) :
    rate_limiter ratePerMin burst (.error ()) nowMs = true := by
  unfold rate_limiter
  split <;> rfl

/-- C10 witness: concrete fail-open decision at rate 60, burst 1. -/
theorem C10_witness :
    (0 : ℤ) < 60 ∧ rate_limiter 60 1 (.error ()) 0 = true :=
  ⟨by decide, C10_rate_limiter_fails_open 60 1 0 (by decide)⟩

/-! ## Gateway chat completions endpoint (src/00-pipelines-gateway/src/server.py)

`chat_completions` reads the JSON body; a missing or empty `messages`
field short-circuits with the plain dict `{"error": "messages required"}`
which FastAPI serialises with its default status 200.  The downstream
pipeline (_pre, _mid, _post) is modelled as an oracle from the message
list to the final text; it is only invoked on the non-empty branch.
-/

structure ChatBody where
  messages : Option (List String)
  user : Option String
  deriving DecidableEq

inductive GatewayReply where
  | errorJson (status : Nat) (message : String)
  | completion (status : Nat) (text : String)
  deriving DecidableEq

def GatewayReply.status : GatewayReply → Nat
  | .errorJson s _ => s
  | .completion s _ => s

/-- Embeds `chat_completions`: `if not body.get("messages")` catches both
an absent and an empty messages list and returns the error dict (status
200, the FastAPI default for a returned dict); otherwise the pipeline
runs and a completion object is returned. -/
def chat_completions (pipeline : List String → String) (body : ChatBody) :
    GatewayReply :=
  match body.messages with
  | none => .errorJson 200 "messages required"
  | some [] => .errorJson 200 "messages required"
  | some (m :: ms) => .completion 200 (pipeline (m :: ms))

/-- C6 counterexample: a request with an empty messages list is answered
with the error JSON at HTTP status 200, not 400. -/
theorem C6_counterexample_status_200 :
    (chat_completions (fun _ => "reply") ⟨some [], none⟩).status = 200 ∧
    (chat_completions (fun _ => "reply") ⟨some [], none⟩).status ≠ 400 := by
  exact ⟨rfl, by decide⟩

/-- C6 amended: a request whose messages field is missing or empty is
answered with the error JSON body at the FastAPI default status 200, and
the pipeline is not run: the reply is the same for every pipeline. -/
theorem C6_empty_messages_error (pipeline : List String → String)
    (body : ChatBody)
    (h : body.messages = none ∨ body.messages = some []) :
    chat_completions pipeline body = .errorJson 200 "messages required" := by
  rcases h with h | h <;> simp [chat_completions, h]

/-- C6 witness: concrete empty-messages request. -/
theorem C6_witness :
    ((⟨some [], none⟩ : ChatBody).messages = none ∨
      (⟨some [], none⟩ : ChatBody).messages = some ([] : List String)) ∧
    chat_completions (fun _ => "reply") ⟨some [], none⟩ =
      .errorJson 200 "messages required" :=
  ⟨Or.inr rfl, C6_empty_messages_error (fun _ => "reply") ⟨some [], none⟩
    (Or.inr rfl)⟩

/-! ## Drive state service (src/05-drive-state/src/drive_state.py)

The five drive dimensions are rationals; `clamp_values` clamps each to
[0, 1].  `get_drive_state` lazily creates the state, applies time decay
toward the 0.5 baseline, applies a bounded random walk (the five random
draws are explicit parameters) followed by a clamp, stamps the time and
persists.  `update_drive_state` additionally applies the explicit deltas
and clamps again before persisting.
-/

structure DriveState where
  user_id : String
  energy : ℚ
  sociability : ℚ
  curiosity : ℚ
  empathy_reserve : ℚ
  novelty_seek : ℚ
  timestamp : ℚ
  deriving DecidableEq

def clamp01 (x : ℚ) : ℚ := max 0 (min 1 x)

/-- Embeds `DriveState.clamp_values`. -/
def clamp_values (s : DriveState) : DriveState :=
  { s with
    energy := clamp01 s.energy
    sociability := clamp01 s.sociability
    curiosity := clamp01 s.curiosity
    empathy_reserve := clamp01 s.empathy_reserve
    novelty_seek := clamp01 s.novelty_seek }

def baseline_decay_rate : ℚ := 1/1000

def random_walk_step : ℚ := 1/50

/-- Embeds `_apply_time_decay`: decay toward the 0.5 baseline with factor
min(1, elapsed * rate * 10) when time moved forward. -/
def apply_time_decay (s : DriveState) (now : ℚ) : DriveState :=
  let timeDiff := now - s.timestamp
  if timeDiff > 0 then
    let decayFactor := min 1 (timeDiff * baseline_decay_rate * 10)
    let baseline : ℚ := 1/2
    { s with
      energy := s.energy + (baseline - s.energy) * decayFactor
      sociability := s.sociability + (baseline - s.sociability) * decayFactor
      curiosity := s.curiosity + (baseline - s.curiosity) * decayFactor
      empathy_reserve :=
        s.empathy_reserve + (baseline - s.empathy_reserve) * decayFactor
      novelty_seek := s.novelty_seek + (baseline - s.novelty_seek) * decayFactor }
  else s

structure RandomDraws where
  energy : ℚ
  sociability : ℚ
  curiosity : ℚ
  empathy_reserve : ℚ
  novelty_seek : ℚ

/-- Embeds `_apply_random_walk`: add the uniform draws, then clamp. -/
def apply_random_walk (s : DriveState) (d : RandomDraws) : DriveState :=
  clamp_values
    { s with
      energy := s.energy + d.energy
      sociability := s.sociability + d.sociability
      curiosity := s.curiosity + d.curiosity
      empathy_reserve := s.empathy_reserve + d.empathy_reserve
      novelty_seek := s.novelty_seek + d.novelty_seek }

def DriveStore : Type := List (String × DriveState)

def lookupDrive (store : DriveStore) (u : String) : Option DriveState :=
  match store with
  | [] => none
  | e :: rest => if e.1 == u then some e.2 else lookupDrive rest u

def saveDrive (store : DriveStore) (u : String) (s : DriveState) : DriveStore :=
  (u, s) :: store.filter (fun e => !(e.1 == u))

/-- Embeds `get_drive_state`: lazy creation at 0.5 defaults, time decay,
random walk with clamp, timestamp update, persist.  Returns the state
handed back to the caller and the persisted store. -/
def get_drive_state (store : DriveStore) (u : String) (now : ℚ)
    (d : RandomDraws) : DriveState × DriveStore :=
  let s0 :=
    match lookupDrive store u with
    | some s => s
    | none => ⟨u, 1/2, 1/2, 1/2, 1/2, 1/2, now⟩
  let s1 := apply_time_decay s0 now
  let s2 := apply_random_walk s1 d
  let s3 := { s2 with timestamp := now }
  (s3, saveDrive store u s3)

structure DriveDeltas where
  energy : Option ℚ
  sociability : Option ℚ
  curiosity : Option ℚ
  empathy_reserve : Option ℚ
  novelty_seek : Option ℚ

def applyDelta (x : ℚ) : Option ℚ → ℚ
  | some dx => x + dx
  | none => x

/-- Embeds `update_drive_state`: read (which already decays and walks),
apply the explicit deltas that are present, clamp, stamp time, persist. -/
def update_drive_state (store : DriveStore) (u : String) (now : ℚ)
    (d : RandomDraws) (deltas : DriveDeltas) : DriveState × DriveStore :=
  let s := (get_drive_state store u now d).1
  let store1 := (get_drive_state store u now d).2
  let s1 :=
    { s with
      energy := applyDelta s.energy deltas.energy
      sociability := applyDelta s.sociability deltas.sociability
      curiosity := applyDelta s.curiosity deltas.curiosity
      empathy_reserve := applyDelta s.empathy_reserve deltas.empathy_reserve
      novelty_seek := applyDelta s.novelty_seek deltas.novelty_seek }
  let s2 := clamp_values s1
  let s3 := { s2 with timestamp := now }
  (s3, saveDrive store1 u s3)

def driveInRange (s : DriveState) : Prop :=
  (0 ≤ s.energy ∧ s.energy ≤ 1) ∧
  (0 ≤ s.sociability ∧ s.sociability ≤ 1) ∧
  (0 ≤ s.curiosity ∧ s.curiosity ≤ 1) ∧
  (0 ≤ s.empathy_reserve ∧ s.empathy_reserve ≤ 1) ∧
  (0 ≤ s.novelty_seek ∧ s.novelty_seek ≤ 1)

theorem clamp01_nonneg (x : ℚ) : 0 ≤ clamp01 x := le_max_left 0 _

theorem clamp01_le_one (x : ℚ) : clamp01 x ≤ 1 :=
  max_le (by norm_num) (min_le_left 1 x)

theorem clamp_values_inRange (s : DriveState) : driveInRange (clamp_values s) :=
  ⟨⟨clamp01_nonneg _, clamp01_le_one _⟩, ⟨clamp01_nonneg _, clamp01_le_one _⟩,
    ⟨clamp01_nonneg _, clamp01_le_one _⟩, ⟨clamp01_nonneg _, clamp01_le_one _⟩,
    ⟨clamp01_nonneg _, clamp01_le_one _⟩⟩

theorem lookup_saveDrive (store : DriveStore) (u : String) (s : DriveState) :
    lookupDrive (saveDrive store u s) u = some s := by
  simp [saveDrive, lookupDrive]

/-- C7: for every store (hence after any earlier sequence of operations),
user, clock value, random draws and deltas, the state returned by
`get_drive_state` and by `update_drive_state` has all five dimensions in
[0, 1], and the persisted store holds exactly that returned state for the
user. -/
theorem C7_drive_state_bounded (store : DriveStore) (u : String) (now : ℚ)
    (d : RandomDraws) (deltas : DriveDeltas) :
    driveInRange (get_drive_state store u now d).1 ∧
    lookupDrive (get_drive_state store u now d).2 u =
      some (get_drive_state store u now d).1 ∧
    driveInRange (update_drive_state store u now d deltas).1 ∧
    lookupDrive (update_drive_state store u now d deltas).2 u =
      some (update_drive_state store u now d deltas).1 := by
  refine ⟨?_, ?_, ?_, ?_⟩
  · simp only [get_drive_state]
    exact clamp_values_inRange _
  · simp only [get_drive_state]
    exact lookup_saveDrive _ _ _
  · simp only [update_drive_state]
    exact clamp_values_inRange _
  · simp only [update_drive_state]
    exact lookup_saveDrive _ _ _

/-! ## Gateway tool-call loop (src/00-pipelines-gateway/src/server.py)

`_tool_call_loop` iterates at most `max_iters` times: ask the model,
return when its reply carries no tool_calls, otherwise execute each tool
sequentially, append the tool messages (and an assistant stub when the
reply has content) and continue.  After the final iteration the last
draft and the grown message list are returned.  With `max_iters = 0` the
loop body never runs and the `return draft, messages` line reads the
unbound local `draft`, raising UnboundLocalError: this is modelled as
`none`.  The model is an oracle from the message list to a reply and the
tool executor an oracle from a call to its JSON result string.
-/

structure ToolCall where
  name : String
  arguments : String
  deriving DecidableEq

structure ChatMsg where
  role : String
  content : String
  name : Option String
  deriving DecidableEq

structure ModelReply where
  content : String
  tool_calls : List ToolCall
  deriving DecidableEq

/-- Embeds `_execute_tool`: run the tool and append the tool message. -/
def execute_tool (exec : ToolCall → String) (call : ToolCall)
    (messages : List ChatMsg) : List ChatMsg :=
  messages ++ [⟨"tool", exec call, some call.name⟩]

def execute_tools (exec : ToolCall → String) (calls : List ToolCall)
    (messages : List ChatMsg) : List ChatMsg :=
  calls.foldl (fun ms c => execute_tool exec c ms) messages

/-- One loop body iteration after a reply with tool calls: execute the
tools, then append the assistant stub when the reply content is
non-empty. -/
def loopStep (model : List ChatMsg → ModelReply) (exec : ToolCall → String)
    (messages : List ChatMsg) : List ChatMsg :=
  let draft := model messages
  let m2 := execute_tools exec draft.tool_calls messages
  if draft.content ≠ "" then m2 ++ [⟨"assistant", draft.content, none⟩] else m2

/-- Embeds `_tool_call_loop` with the iteration budget `max_iters` as
fuel.  `none` models the UnboundLocalError raised when `max_iters = 0`
leaves `draft` unbound at the return statement. -/
def tool_call_loop (model : List ChatMsg → ModelReply)
    (exec : ToolCall → String) (messages : List ChatMsg) :
    Nat → Option (ModelReply × List ChatMsg)
  | 0 => none
  | n + 1 =>
      if (model messages).tool_calls = [] then some (model messages, messages)
      else
        match tool_call_loop model exec (loopStep model exec messages) n with
        | none => some (model messages, loopStep model exec messages)
        | some r => some r

/-- Message list reached after k executed loop iterations. -/
def iterMessages (model : List ChatMsg → ModelReply) (exec : ToolCall → String) :
    Nat → List ChatMsg → List ChatMsg
  | 0, messages => messages
  | k + 1, messages => iterMessages model exec k (loopStep model exec messages)

theorem tool_call_loop_isSome (model : List ChatMsg → ModelReply)
    (exec : ToolCall → String) (messages : List ChatMsg) (n : Nat) :
    (tool_call_loop model exec messages (n + 1)).isSome := by
  induction n generalizing messages with
  | zero =>
      rw [tool_call_loop]
      split
      · rfl
      · rfl
  | succ k ih =>
      rw [tool_call_loop]
      split
      · rfl
      · cases htl : tool_call_loop model exec (loopStep model exec messages)
          (k + 1)
        · rfl
        · rfl

theorem tool_call_loop_all_tools (model : List ChatMsg → ModelReply)
    (exec : ToolCall → String)
    (hall : ∀ ms, (model ms).tool_calls ≠ []) (n : Nat) :
    ∀ messages, tool_call_loop model exec messages (n + 1) =
      some (model (iterMessages model exec n messages),
        iterMessages model exec (n + 1) messages) := by
  induction n with
  | zero =>
      intro messages
      rw [tool_call_loop, if_neg (hall messages), tool_call_loop]
      rfl
  | succ k ih =>
      intro messages
      rw [tool_call_loop, if_neg (hall messages),
        ih (loopStep model exec messages)]
      rfl

/-- C4 counterexample: with max_iters = 0 the loop does not return the
first model reply (it raises before calling the model, modelled as
`none`), refuting the claim at a concrete model, tool executor and
message list. -/
theorem C4_counterexample_zero_iters :
    tool_call_loop (fun _ => ⟨"hello", []⟩) (fun _ => "result") [] 0 ≠
      some (⟨"hello", []⟩, []) := by
  decide

/-- C4 amended: the loop always terminates; with max_iters ≥ 1 it returns
a value: the first reply without tool_calls together with the messages at
that point, and when every reply carries tool_calls the last draft (its
text used even if empty) with the fully grown message list; with
max_iters = 0 it raises UnboundLocalError (modelled none) instead of
returning the first model response. -/
theorem C4_tool_loop_characterisation (model : List ChatMsg → ModelReply)
    (exec : ToolCall → String) (messages : List ChatMsg) (n : Nat) :
    (tool_call_loop model exec messages 0 = none) ∧
    ((tool_call_loop model exec messages (n + 1)).isSome) ∧
    ((model messages).tool_calls = [] →
      tool_call_loop model exec messages (n + 1) =
        some (model messages, messages)) ∧
    ((∀ ms, (model ms).tool_calls ≠ []) →
      tool_call_loop model exec messages (n + 1) =
        some (model (iterMessages model exec n messages),
          iterMessages model exec (n + 1) messages)) := by
  refine ⟨rfl, tool_call_loop_isSome model exec messages n, ?_, ?_⟩
  · intro hnone
    simp only [tool_call_loop]
    rw [if_pos hnone]
  · intro hall
    exact tool_call_loop_all_tools model exec hall n messages

/-- C4 witness: concrete run with one iteration budget and a reply with
no tool calls. -/
theorem C4_witness :
    ((fun _ => (⟨"hi", []⟩ : ModelReply)) ([] : List ChatMsg)).tool_calls =
      ([] : List ToolCall) ∧
    tool_call_loop (fun _ => ⟨"hi", []⟩) (fun _ => "r") [] 1 =
      some (⟨"hi", []⟩, []) :=
  ⟨rfl,
    (C4_tool_loop_characterisation (fun _ => ⟨"hi", []⟩) (fun _ => "r") [] 0).2.2.1
      rfl⟩

/-! ## OpenRouter provider (src/00-pipelines-gateway/src/providers/openrouter.py)

`chat` walks the model priority list; per model it makes up to
MAX_RETRIES attempts.  Status 200 returns the content.  A status in
RETRY_STATUSES records the error text and retries after sleeping
(RETRY_DELAY_MS/1000) * 2^attempt seconds.  Any other status goes through
`r.raise_for_status()`, which raises for 4xx/5xx; the raised HTTPError is
caught by the surrounding `except Exception` handler, recorded as the
last error and retried with the same backoff.  A 2xx/3xx status other
than 200 falls through and the loop moves to the next attempt without
sleeping.  A network error behaves like the caught exception.  After each
exhausted model the code sleeps 0.4 s and moves on; when the line-up is
exhausted a RuntimeError carrying the last error is raised.  HTTP
responses are an oracle indexed by (model position, attempt). -/

inductive ProvResp where
  | ok (content : String)
  | status (code : Nat) (text : String)
  | netErr (msg : String)

inductive ProvEvent where
  | attempt (model : String) (idx : Nat)
  | sleepSec (q : ℚ)
  deriving DecidableEq

def MAX_RETRIES : Nat := 3

def RETRY_DELAY_MS : ℚ := 200

def RETRY_STATUSES : List Nat := [402, 408, 409, 429, 500, 502, 503, 504]

def DEFAULT_MODEL : String := "deepseek/deepseek-chat"

def backoffSleep (attempt : Nat) : ProvEvent :=
  .sleepSec (RETRY_DELAY_MS / 1000 * 2 ^ attempt)

/-- The per-model attempt loop of `chat`.  `remaining` counts the attempts
left out of MAX_RETRIES, `attempt` is the current index.  Returns the
content on success, otherwise the last error, together with the appended
event log. -/
def tryModel (oracle : Nat → ProvResp) (model : String) :
    Nat → Nat → Option String → List ProvEvent →
      Option String × Option String × List ProvEvent
  | 0, _, lastErr, log => (none, lastErr, log)
  | remaining + 1, attempt, lastErr, log =>
      let log1 := log ++ [.attempt model attempt]
      match oracle attempt with
      | .ok content => (some content, lastErr, log1)
      | .status code text =>
          if code ∈ RETRY_STATUSES then
            let lastErr1 := some (toString code ++ " " ++ (text.take 200))
            if attempt < MAX_RETRIES - 1 then
              tryModel oracle model remaining (attempt + 1) lastErr1
                (log1 ++ [backoffSleep attempt])
            else (none, lastErr1, log1)
          else if 400 ≤ code then
            let lastErr1 := some ("HTTPError " ++ toString code)
            if attempt < MAX_RETRIES - 1 then
              tryModel oracle model remaining (attempt + 1) lastErr1
                (log1 ++ [backoffSleep attempt])
            else (none, lastErr1, log1)
          else
            tryModel oracle model remaining (attempt + 1) lastErr log1
      | .netErr msg =>
          let lastErr1 := some msg
          if attempt < MAX_RETRIES - 1 then
            tryModel oracle model remaining (attempt + 1) lastErr1
              (log1 ++ [backoffSleep attempt])
          else (none, lastErr1, log1)

def allModelsFailedMsg (lineupLen : Nat) (lastErr : Option String) : String :=
  "OpenRouter call failed after trying " ++ toString lineupLen ++
    " model(s): " ++ (lastErr.getD "None")

/-- The outer model loop of `chat`. -/
def chatModelsLoop (oracle : Nat → Nat → ProvResp) (lineupLen : Nat) :
    List String → Nat → Option String → List ProvEvent →
      Except String String × List ProvEvent
  | [], _, lastErr, log => (.error (allModelsFailedMsg lineupLen lastErr), log)
  | model :: rest, i, lastErr, log =>
      match tryModel (oracle i) model MAX_RETRIES 0 lastErr log with
      | (some content, _, log1) => (.ok content, log1)
      | (none, lastErr1, log1) =>
          chatModelsLoop oracle lineupLen rest (i + 1) lastErr1
            (log1 ++ [.sleepSec (2/5)])

/-- Embeds `chat`: blank models are dropped from the priority list and an
empty line-up falls back to the default model. -/
def chat (oracle : Nat → Nat → ProvResp) (model_priority : List String) :
    Except String String × List ProvEvent :=
  let filtered := model_priority.filter (fun m => m ≠ "")
  let lineup := if filtered = [] then [DEFAULT_MODEL] else filtered
  chatModelsLoop oracle lineup.length lineup 0 none []

def isAttemptEvent : ProvEvent → Bool
  | .attempt _ _ => true
  | .sleepSec _ => false

/-- C5: a model answering 404 (not in RETRY_STATUSES, so per the claim it
must surface immediately with a single attempt) is in fact attempted
MAX_RETRIES = 3 times with backoff sleeps, because `raise_for_status` is
caught by the enclosing exception handler; afterwards the call fails with
a RuntimeError carrying the last HTTPError. -/
theorem C5_non_retryable_status_is_retried :
    (chat (fun _ _ => .status 404 "not found") ["m1"]).2 =
      [.attempt "m1" 0, .sleepSec (1/5), .attempt "m1" 1, .sleepSec (2/5),
        .attempt "m1" 2, .sleepSec (2/5)] ∧
    ((chat (fun _ _ => .status 404 "not found") ["m1"]).2.countP
        isAttemptEvent = 3) ∧
    (chat (fun _ _ => .status 404 "not found") ["m1"]).1 =
      .error "OpenRouter call failed after trying 1 model(s): HTTPError 404" := by
  refine ⟨?_, ?_, ?_⟩
  · show _ = _
    norm_num [chat, chatModelsLoop, tryModel, MAX_RETRIES, RETRY_STATUSES,
      backoffSleep, RETRY_DELAY_MS, allModelsFailedMsg]
  · norm_num [chat, chatModelsLoop, tryModel, MAX_RETRIES, RETRY_STATUSES,
      backoffSleep, RETRY_DELAY_MS, allModelsFailedMsg, List.countP,
      List.countP.go, isAttemptEvent]
  · norm_num [chat, chatModelsLoop, tryModel, MAX_RETRIES, RETRY_STATUSES,
      backoffSleep, RETRY_DELAY_MS, allModelsFailedMsg]
    rfl

/-! ## Telemetry cache key derivation (src/14-telemetry-cache/src/app.py)

`normalize_tool_args` sorts the argument items, normalises each value
(floats to two decimals, strings lowercased with non-alphanumerics
mapped to underscore and truncated to 50 characters, anything else via
str) and joins them as tool:<name>:<k1>:<v1>:...  Python dict keys are
unique, so `sorted(args.items())` never compares the values; sorting by
key models it.  Python floats are modelled as rationals and the .2f
formatting as round-half-even at two decimals. -/

inductive PyVal where
  | pint (n : ℤ)
  | pfloat (q : ℚ)
  | pstr (s : String)
  | pbool (b : Bool)
  deriving DecidableEq

/-- Round to the nearest integer, ties to even, as the Python float
formatting does. -/
def roundHalfEven (q : ℚ) : ℤ :=
  let f := q.floor
  let r := q - f
  if r < 1/2 then f
  else if r > 1/2 then f + 1
  else if f % 2 = 0 then f else f + 1

/-- The Python format f-string .2f on the rational model. -/
def format2f (q : ℚ) : String :=
  let n := roundHalfEven (q * 100)
  let m := n.natAbs
  let sign := if q < 0 then "-" else ""
  let frac := m % 100
  sign ++ toString (m / 100) ++ "." ++
    (if frac < 10 then "0" else "") ++ toString frac

/-- Python str.lower() on an ASCII character. -/
def pyLowerChar (c : Char) : Char :=
  if 'A' ≤ c ∧ c ≤ 'Z' then Char.ofNat (c.toNat + 32) else c

/-- re.sub of [^a-z0-9] with _ on the lowercased string, then [:50]. -/
def normStr (s : String) : String :=
  String.mk
    (((s.toList.map pyLowerChar).map
      (fun c => if ('a' ≤ c ∧ c ≤ 'z') ∨ c.isDigit then c else '_')).take 50)

/-- Value normalisation of `normalize_tool_args`: floats via .2f, strings
via `normStr`, everything else via str(). -/
def normalizeValue : PyVal → String
  | .pfloat q => format2f q
  | .pstr s => normStr s
  | .pint n => toString n
  | .pbool b => if b then "True" else "False"

def keyRel {β : Type} (a b : String × β) : Prop := a.1 ≤ b.1

instance {β : Type} : DecidableRel (keyRel (β := β)) :=
  fun a b => inferInstanceAs (Decidable (a.1 ≤ b.1))

instance {β : Type} : IsTotal (String × β) keyRel :=
  ⟨fun a b => le_total a.1 b.1⟩

instance {β : Type} : IsTrans (String × β) keyRel :=
  ⟨fun _ _ _ h₁ h₂ => le_trans h₁ h₂⟩

/-- `sorted(args.items())` for unique dict keys: sort by key. -/
def sortArgs {β : Type} (args : List (String × β)) : List (String × β) :=
  List.insertionSort keyRel args

def normPair (kv : String × PyVal) : String × String :=
  (kv.1, normalizeValue kv.2)

def joinPair (p : String × String) : String := p.1 ++ ":" ++ p.2

/-- Embeds `normalize_tool_args`. -/
def normalize_tool_args (tool : String) (args : List (String × PyVal)) :
    String :=
  "tool:" ++ tool ++ ":" ++
    String.intercalate ":"
      ((sortArgs args).map (fun kv => kv.1 ++ ":" ++ normalizeValue kv.2))

theorem sortedPairs_eq {β : Type} {l₁ l₂ : List (String × β)}
    (hp : l₁.Perm l₂) (hs₁ : l₁.Sorted keyRel) (hs₂ : l₂.Sorted keyRel)
    (hnd : (l₁.map Prod.fst).Nodup) : l₁ = l₂ := by
  induction l₁ generalizing l₂ with
  | nil =>
      cases l₂ with
      | nil => rfl
      | cons b t₂ => exact absurd hp.length_eq (by simp)
  | cons a t ih =>
      cases l₂ with
      | nil => exact absurd hp.length_eq (by simp)
      | cons b t₂ =>
          have hab : a = b := by
            have ha2 : a ∈ b :: t₂ := hp.mem_iff.mp (List.mem_cons_self a t)
            have hb1 : b ∈ a :: t := hp.symm.mem_iff.mp (List.mem_cons_self b t₂)
            rcases List.mem_cons.mp ha2 with h | h
            · exact h
            · rcases List.mem_cons.mp hb1 with h2 | h2
              · exact h2.symm
              · have hle₁ : a.1 ≤ b.1 := (List.sorted_cons.mp hs₁).1 b h2
                have hle₂ : b.1 ≤ a.1 := (List.sorted_cons.mp hs₂).1 a h
                exfalso
                apply (List.nodup_cons.mp hnd).1
                have : a.1 = b.1 := le_antisymm hle₁ hle₂
                rw [this]
                exact List.mem_map_of_mem Prod.fst h2
          subst hab
          rw [ih hp.cons_inv (List.sorted_cons.mp hs₁).2
            (List.sorted_cons.mp hs₂).2 (List.nodup_cons.mp hnd).2]

/-- C8: the cache key is a deterministic function of (tool, args),
invariant under argument key order and value differences erased by the
normalisation (float digits beyond two decimals, string case,
non-alphanumeric characters and characters past 50): whenever the
normalised key/value pairs of two argument dicts agree as multisets and
the keys are unique, the derived keys are identical. -/
theorem C8_cache_key_deterministic (tool : String)
    (args args2 : List (String × PyVal))
    (hnd : (args.map Prod.fst).Nodup)
    (hperm : (args.map normPair).Perm (args2.map normPair)) :
    normalize_tool_args tool args = normalize_tool_args tool args2 := by
  have e1 : (args.map normPair).map Prod.fst = args.map Prod.fst := by
    simp [normPair]
  have e2 : (args2.map normPair).map Prod.fst = args2.map Prod.fst := by
    simp [normPair]
  have hcomm1 : (sortArgs args).map normPair = sortArgs (args.map normPair) :=
    List.map_insertionSort keyRel keyRel normPair args (fun _ _ _ _ => Iff.rfl)
  have hcomm2 : (sortArgs args2).map normPair =
      sortArgs (args2.map normPair) :=
    List.map_insertionSort keyRel keyRel normPair args2 (fun _ _ _ _ => Iff.rfl)
  have hndn : ((sortArgs (args.map normPair)).map Prod.fst).Nodup := by
    have hps : (sortArgs (args.map normPair)).Perm (args.map normPair) :=
      List.perm_insertionSort keyRel _
    exact ((hps.map Prod.fst).nodup_iff).mpr (by rw [e1]; exact hnd)
  have hkey : sortArgs (args.map normPair) = sortArgs (args2.map normPair) := by
    apply sortedPairs_eq
    · exact (List.perm_insertionSort keyRel _).trans
        (hperm.trans (List.perm_insertionSort keyRel _).symm)
    · exact List.sorted_insertionSort keyRel _
    · exact List.sorted_insertionSort keyRel _
    · exact hndn
  have hmapjoin : ∀ l : List (String × PyVal),
      l.map (fun kv => kv.1 ++ ":" ++ normalizeValue kv.2) =
        (l.map normPair).map joinPair := by
    intro l
    rw [List.map_map]
    rfl
  unfold normalize_tool_args
  rw [hmapjoin, hmapjoin, hcomm1, hcomm2, hkey]

/-- C8 witness: two argument dicts differing in key order, string case
and punctuation produce the same cache key. -/
theorem C8_witness :
    (([("b", PyVal.pint 5), ("a", PyVal.pstr "Hello!")].map
        Prod.fst).Nodup) ∧
    (([("b", PyVal.pint 5), ("a", PyVal.pstr "Hello!")].map normPair).Perm
      ([("a", PyVal.pstr "HELLO:"), ("b", PyVal.pint 5)].map normPair)) ∧
    normalize_tool_args "weather" [("b", .pint 5), ("a", .pstr "Hello!")] =
      normalize_tool_args "weather" [("a", .pstr "HELLO:"), ("b", .pint 5)] :=
  ⟨by decide, by decide,
    C8_cache_key_deterministic "weather" _ _ (by decide) (by decide)⟩

/-! ## Telemetry PII redaction (src/14-telemetry-cache/src/app.py)

`redact_pii` deep-copies the payload and walks it: for every dict it
inspects each value; a string value is tested against the PII regex set
(re.search with re.IGNORECASE, in dict insertion order) and on the first
hit replaced wholesale by [REDACTED_<TYPE>], recording the key; any other
value is recursed into; a list is walked item by item by the same
recursion, which does nothing for a plain string item.  The regex subset
needed by the eight patterns (single-character classes with counted
repetition and word boundaries) is embedded as a small backtracking
matcher; `re.search` succeeds iff a match starts at some position. -/

inductive RItem where
  | cls (p : Char → Bool) (lo : Nat) (hi : Option Nat)
  | wb

def rOne (p : Char → Bool) : RItem := .cls p 1 (some 1)

def rOpt (p : Char → Bool) : RItem := .cls p 0 (some 1)

def rRep (p : Char → Bool) (n : Nat) : RItem := .cls p n (some n)

def rPlus (p : Char → Bool) : RItem := .cls p 1 none

def rAtLeast (p : Char → Bool) (n : Nat) : RItem := .cls p n none

def rRange (p : Char → Bool) (lo hi : Nat) : RItem := .cls p lo (some hi)

def isWordCharOpt : Option Char → Bool
  | none => false
  | some c => c.isAlphanum || c = '_'

/-- Python \b: a word boundary sits between a word and a non-word
position (string ends count as non-word). -/
def isBoundary (prev next : Option Char) : Bool :=
  isWordCharOpt prev != isWordCharOpt next

def takeWhileCount (p : Char → Bool) : List Char → Nat
  | [] => 0
  | c :: cs => if p c then takeWhileCount p cs + 1 else 0

def charBefore (prev : Option Char) (s : List Char) (k : Nat) : Option Char :=
  if k = 0 then prev else (s.drop (k - 1)).head?

/-- Does the item list match some prefix of s?  `prev` is the character
just before the current position (for the boundary assertion).  Counted
class repetition tries every allowed consumption length, so the
existential covers every backtracking choice of the Python engine. -/
def matchFrom : List RItem → Option Char → List Char → Bool
  | [], _, _ => true
  | .wb :: rest, prev, s => isBoundary prev s.head? && matchFrom rest prev s
  | .cls p lo hi :: rest, prev, s =>
      let mx := takeWhileCount p s
      let upper := match hi with | none => mx | some h => min h mx
      (List.range (upper + 1)).any fun k =>
        decide (lo ≤ k) && matchFrom rest (charBefore prev s k) (s.drop k)

def searchFrom (pat : List RItem) : Option Char → List Char → Bool
  | prev, [] => matchFrom pat prev []
  | prev, c :: cs => matchFrom pat prev (c :: cs) || searchFrom pat (some c) cs

/-- re.search: the pattern matches starting at some position. -/
def reSearch (pat : List RItem) (s : String) : Bool :=
  searchFrom pat none s.toList

def isDigitChar (c : Char) : Bool := c.isDigit

def isAlnumChar (c : Char) : Bool := c.isAlphanum

def isEmailLocalChar (c : Char) : Bool :=
  c.isAlphanum || c = '.' || c = '_' || c = '%' || c = '+' || c = '-'

def isEmailDomainChar (c : Char) : Bool :=
  c.isAlphanum || c = '.' || c = '-'

def isEmailTldChar (c : Char) : Bool := c.isAlpha || c = '|'

def isDashDotChar (c : Char) : Bool := c = '-' || c = '.'

def isDashChar (c : Char) : Bool := c = '-'

def isDotChar (c : Char) : Bool := c = '.'

def isUnderDashChar (c : Char) : Bool := c = '_' || c = '-'

/-- A literal letter under re.IGNORECASE. -/
def ciLit (c : Char) : RItem := rOne (fun x => pyLowerChar x = c)

def emailPattern : List RItem :=
  [.wb, rPlus isEmailLocalChar, rOne (fun c => c = '@'),
    rPlus isEmailDomainChar, rOne isDotChar, rAtLeast isEmailTldChar 2, .wb]

def phonePattern : List RItem :=
  [.wb, rRep isDigitChar 3, rOpt isDashDotChar, rRep isDigitChar 3,
    rOpt isDashDotChar, rRep isDigitChar 4, .wb]

def ssnPattern : List RItem :=
  [.wb, rRep isDigitChar 3, rOpt isDashChar, rRep isDigitChar 2,
    rOpt isDashChar, rRep isDigitChar 4, .wb]

def creditCardPattern : List RItem :=
  [.wb, rRep isDigitChar 4, rOpt isDashChar, rRep isDigitChar 4,
    rOpt isDashChar, rRep isDigitChar 4, rOpt isDashChar,
    rRep isDigitChar 4, .wb]

def apiKeyPattern : List RItem := [.wb, rAtLeast isAlnumChar 32, .wb]

def ipAddressPattern : List RItem :=
  [.wb, rRange isDigitChar 1 3, rOne isDotChar, rRange isDigitChar 1 3,
    rOne isDotChar, rRange isDigitChar 1 3, rOne isDotChar,
    rRange isDigitChar 1 3, .wb]

def userIdPattern : List RItem :=
  [.wb, ciLit 'u', ciLit 's', ciLit 'e', ciLit 'r', rOpt isUnderDashChar,
    rPlus isAlnumChar, .wb]

def sessionIdPattern : List RItem :=
  [.wb, ciLit 's', ciLit 'e', ciLit 's', ciLit 's', rPlus isAlnumChar, .wb]

/-- PII_PATTERNS in dict insertion order. -/
def PII_PATTERNS : List (String × List RItem) :=
  [("email", emailPattern), ("phone", phonePattern), ("ssn", ssnPattern),
    ("credit_card", creditCardPattern), ("api_key", apiKeyPattern),
    ("ip_address", ipAddressPattern), ("user_id", userIdPattern),
    ("session_id", sessionIdPattern)]

def firstPiiType (s : String) : Option String :=
  match PII_PATTERNS.find? (fun p => reSearch p.2 s) with
  | some p => some p.1
  | none => none

def pyUpperChar (c : Char) : Char :=
  if 'a' ≤ c ∧ c ≤ 'z' then Char.ofNat (c.toNat - 32) else c

def pyUpper (s : String) : String := String.mk (s.toList.map pyUpperChar)

inductive JValue where
  | str (s : String)
  | num (n : ℤ)
  | bool (b : Bool)
  | null
  | arr (items : List JValue)
  | obj (fields : List (String × JValue))

mutual

/-- Embeds `_redact` inside `redact_pii`: dicts and lists are walked,
anything else (in particular a string reached as a list item or at top
level) is left alone. -/
def redactValue (acc : List String) : JValue → JValue × List String
  | .obj fields =>
      let r := redactFields acc fields
      (.obj r.1, r.2)
  | .arr items =>
      let r := redactItems acc items
      (.arr r.1, r.2)
  | v => (v, acc)

/-- Dict walk of `_redact`: a string value is replaced wholesale by the
placeholder of the first matching PII class and the key recorded once;
other values are recursed into. -/
def redactFields (acc : List String) :
    List (String × JValue) → List (String × JValue) × List String
  | [] => ([], acc)
  | (k, .str s) :: rest =>
      match firstPiiType s with
      | some t =>
          let acc1 := if acc.contains k then acc else acc ++ [k]
          let r := redactFields acc1 rest
          ((k, .str ("[REDACTED_" ++ pyUpper t ++ "]")) :: r.1, r.2)
      | none =>
          let r := redactFields acc rest
          ((k, .str s) :: r.1, r.2)
  | (k, v) :: rest =>
      let rv := redactValue acc v
      let r := redactFields rv.2 rest
      ((k, rv.1) :: r.1, r.2)

/-- List walk of `_redact`: recurse into each item (a no-op for plain
string items). -/
def redactItems (acc : List String) : List JValue → List JValue × List String
  | [] => ([], acc)
  | v :: rest =>
      let rv := redactValue acc v
      let r := redactItems rv.2 rest
      (rv.1 :: r.1, r.2)

end

/-- Embeds `TelemetryProcessor.redact_pii` applied to the event payload
by the /log endpoint: returns the redacted deep copy and the list of
redacted keys. -/
def redact_pii (payload : JValue) : JValue × List String :=
  redactValue [] payload

/-- C1: the payload holding the email address inside a list is stored
unredacted by the telemetry log path (the list walk skips plain string
items), yet the stored string still matches the email PII pattern; the
same string sitting directly under a dict key is redacted, confirming the
list nesting is the failing case. -/
theorem C1_list_nested_pii_not_redacted :
    redact_pii (.obj [("recipients", .arr [.str "alice@example.com"])]) =
      (.obj [("recipients", .arr [.str "alice@example.com"])], []) ∧
    reSearch emailPattern "alice@example.com" = true ∧
    redact_pii (.obj [("to", .str "alice@example.com")]) =
      (.obj [("to", .str "[REDACTED_EMAIL]")], ["to"]) := by
  refine ⟨?_, ?_, ?_⟩ <;> rfl

/-! ## Intent router /route endpoint (src/01-intent-router/src)

app.py imports `build_route` from rules.py, but rules.py as shipped does
not define it: the function that decides family routing is missing from
the sources, so it is modelled from the specification below. -/

inductive Family where
  | TECH
  | LEGAL
  | REGULATED
  | PSYCHOTHERAPY
  | GENERAL_PRECISION
  | OPEN_ENDED
  deriving DecidableEq

def Family.name : Family → String
  | .TECH => "TECH"
  | .LEGAL => "LEGAL"
  | .REGULATED => "REGULATED"
  | .PSYCHOTHERAPY => "PSYCHOTHERAPY"
  | .GENERAL_PRECISION => "GENERAL_PRECISION"
  | .OPEN_ENDED => "OPEN_ENDED"

/-- Substring containment on character lists. -/
def containsSub (hay needle : List Char) : Bool :=
  match hay with
  | [] => needle.isEmpty
  | _ :: t => needle.isPrefixOf hay || containsSub t needle

def lowerList (s : String) : List Char := s.toList.map pyLowerChar

def textHasAny (text : String) (keywords : List String) : Bool :=
  keywords.any fun k => containsSub (lowerList text) (lowerList k)

/-- Modelled from the spec: the keyword sets of the family classifier
inside the missing `build_route`; the spec fixes disjoint keyword sets
per family and gives the worked examples (Python error text is TECH, GDPR
and contract text LEGAL, SOX compliance REGULATED, therapy anxiety text
PSYCHOTHERAPY, proof requests GENERAL_PRECISION). -/
def psychotherapyKeywords : List String :=
  ["therapy", "therapist", "anxious", "depressed", "counseling", "feeling"]

def regulatedKeywords : List String := ["sox", "hipaa", "regulated"]

def legalKeywords : List String := ["contract", "gdpr", "legal", "law"]

def techKeywords : List String :=
  ["python", "error", "code", "bug", "debug", "api", "programming"]

def precisionKeywords : List String :=
  ["prove", "proof", "theorem", "calculate", "exactly"]

/-- Modelled from the spec: family classification precedence
PSYCHOTHERAPY > REGULATED > LEGAL > TECH > GENERAL_PRECISION >
OPEN_ENDED over disjoint keyword sets. -/
def classifyFamily (text : String) : Family :=
  if textHasAny text psychotherapyKeywords then .PSYCHOTHERAPY
  else if textHasAny text regulatedKeywords then .REGULATED
  else if textHasAny text legalKeywords then .LEGAL
  else if textHasAny text techKeywords then .TECH
  else if textHasAny text precisionKeywords then .GENERAL_PRECISION
  else .OPEN_ENDED

/-- Modelled from the spec: emotion template mapping TECH/LEGAL/REGULATED
to none, PSYCHOTHERAPY to empathy_therapist, GENERAL_PRECISION to
self_monitor, OPEN_ENDED to stakes. -/
def emotionTemplateId : Family → String
  | .TECH => "none"
  | .LEGAL => "none"
  | .REGULATED => "none"
  | .PSYCHOTHERAPY => "empathy_therapist"
  | .GENERAL_PRECISION => "self_monitor"
  | .OPEN_ENDED => "stakes"

/-- Modelled from the spec: provider mapping (REGULATED local unless
opted in; TECH/LEGAL/PSYCHOTHERAPY remote; precision and open-ended
local). -/
def providerFor : Family → String
  | .TECH => "openrouter"
  | .LEGAL => "openrouter"
  | .PSYCHOTHERAPY => "openrouter"
  | _ => "local"

structure RouteInfo where
  family : Family
  emotion_template_id : String
  provider : String
  tags : List String

/-- Modelled from the spec: `build_route` (imported by app.py from
rules.py but absent there).  It classifies the family, maps the emotion
template and provider, and returns the caller tags extended with the
family tag and, for TECH/LEGAL/REGULATED, the no_emotion tag unless the
caller opted out. -/
def build_route (user_text : String) (tags : Option (List String))
    (optOutNoEmotion : Bool) : RouteInfo :=
  let fam := classifyFamily user_text
  let baseTags := tags.getD []
  let noEmotion :=
    if (fam = .TECH ∨ fam = .LEGAL ∨ fam = .REGULATED) ∧ ¬optOutNoEmotion
    then ["no_emotion"] else []
  ⟨fam, emotionTemplateId fam, providerFor fam,
    baseTags ++ [fam.name] ++ noEmotion⟩

/-- C9: whenever the routed family is TECH, LEGAL or REGULATED, the
response tags contain no_emotion unless the caller opted out, and the
emotion template is none; moreover the worked example text about fixing a
Python error routes to family TECH with template none. -/
theorem C9_no_emotion_families (user_text : String)
    (tags : Option (List String)) (optOut : Bool)
    (hfam : (build_route user_text tags optOut).family = .TECH ∨
      (build_route user_text tags optOut).family = .LEGAL ∨
      (build_route user_text tags optOut).family = .REGULATED) :
    (optOut = false →
      "no_emotion" ∈ (build_route user_text tags optOut).tags) ∧
    (build_route user_text tags optOut).emotion_template_id = "none" := by
  have hfam2 : (classifyFamily user_text = .TECH ∨
      classifyFamily user_text = .LEGAL ∨
      classifyFamily user_text = .REGULATED) := hfam
  constructor
  · intro hopt
    subst hopt
    rcases hfam2 with h | h | h <;> simp [build_route, h]
  · rcases hfam2 with h | h | h <;> simp [build_route, h, emotionTemplateId]

/-- C9 witness: the worked TECH example, with default tags and no
opt-out. -/
theorem C9_witness :
    ((build_route "How do I fix this Python error?" none false).family =
        .TECH ∨
      (build_route "How do I fix this Python error?" none false).family =
        .LEGAL ∨
      (build_route "How do I fix this Python error?" none false).family =
        .REGULATED) ∧
    ((false = false →
      "no_emotion" ∈
        (build_route "How do I fix this Python error?" none false).tags) ∧
      (build_route "How do I fix this Python error?" none
        false).emotion_template_id = "none") ∧
    (build_route "How do I fix this Python error?" none false).family =
      .TECH :=
  ⟨Or.inl (by decide),
    C9_no_emotion_families "How do I fix this Python error?" none false
      (Or.inl (by decide)),
    by decide⟩
